import Mathlib

/-!
# Verification of the `AaronWard/llms` repository against its specification

This file shallowly embeds the authored code of the repository —
the ControlFlow tutorial notebook
(`learning/controlflow/examples/example3.ipynb`) and the Reddit scraping
notebook appended to
`personal_projects/31.ai-youtube-analysis/prompts/summarize.txt` — and
settles the frozen claims about it.

Conventions:
* Python machine integers are modelled as `Int` (Python ints are unbounded).
* Python `%` on `Int` agrees with Lean's `Int.emod` (both return a result
  with the sign of the divisor), so `x % 2` translates literally.
* A Python function that can `raise` is modelled as returning
  `Except String α`, the `String` being the exception message.
* Third-party framework entry points (`cf.run`) are not authored in this
  repository; they are taken as an abstract runner argument and the
  authored wrappers are proved to be identities over them.
-/

namespace LlmsRepo

/-! ## ControlFlow notebook: data models
(`learning/controlflow/examples/example3.ipynb`, cell 2) -/

/-- Embeds the pydantic model `CodeReview` of cell 2:
`status`, `issues`, `suggestions`, `approval`. -/
structure CodeReview where
  status : String
  issues : List String
  suggestions : List String
  approval : Bool
deriving DecidableEq, Repr

/-- Embeds the pydantic model `NumberResult` of cell 4 (one `int` field). -/
structure NumberResult where
  number : Int
deriving DecidableEq, Repr

/-! ## ControlFlow notebook: review tools (cell 2) -/

/-- Embeds `approve_code(result)` of cell 2: it ignores its argument and
returns the fixed approved `CodeReview`. -/
def approve_code (_result : CodeReview) : CodeReview :=
  { status := "approved"
    issues := []
    suggestions := ["Code meets all quality standards"]
    approval := true }

/-- Embeds `reject_code(issues)` of cell 2: it returns a rejected
`CodeReview` carrying exactly the issues it was given. -/
def reject_code (issues : List String) : CodeReview :=
  { status := "rejected"
    issues := issues
    suggestions := []
    approval := false }

/-! ## ControlFlow notebook: result validator (cell 4) -/

/-- Embeds `validate_even(result)` of cell 4: raises
`ValueError("The number must be even.")` when `result.number % 2 != 0`,
otherwise returns `result` unchanged. -/
def validate_even (result : NumberResult) : Except String NumberResult :=
  if result.number % 2 ≠ 0 then
    Except.error "The number must be even."
  else
    Except.ok result

/-! ## ControlFlow notebook: flow functions

`review_code` and `check_even_number` each make a single `cf.run` call and
return its result.  `cf.run` belongs to the third-party framework, so each
flow is parametrised by the runner; the argument record captures exactly
what the authored code passes to `cf.run`. -/

/-- The arguments the authored `review_code` flow passes to its single
`cf.run` call (cell 2): a fixed objective and the input `code` placed in
the context together with a fixed requirements list. -/
structure ReviewRunArgs where
  objective : String
  context_code : String
  context_requirements : List String
deriving DecidableEq, Repr

/-- The `cf.run` argument record built by `review_code` for a given
`code` string, exactly as written in cell 2. -/
def reviewRunArgs (code : String) : ReviewRunArgs :=
  { objective := "Review the provided code and either approve or reject it"
    context_code := code
    context_requirements :=
      [ "Check for proper variable naming"
      , "Verify code efficiency"
      , "Look for potential bugs"
      , "Ensure code readability" ] }

/-- Embeds the flow `review_code(code)` of cell 2: one `cf.run` call,
whose result is returned unchanged.  `run` is the third-party
`cf.run` entry point restricted to this call shape. -/
def review_code (run : ReviewRunArgs → CodeReview) (code : String) :
    CodeReview :=
  run (reviewRunArgs code)

/-- The arguments the authored `check_even_number` flow passes to its
single `cf.run` call (cell 4): a fixed objective, the result validator,
and the input number in the context. -/
structure EvenRunArgs where
  objective : String
  result_validator : NumberResult → Except String NumberResult
  context_number : Int

/-- The `cf.run` argument record built by `check_even_number` for a given
`number`, exactly as written in cell 4. -/
def evenRunArgs (number : Int) : EvenRunArgs :=
  { objective := "Check if the number is even"
    result_validator := validate_even
    context_number := number }

/-- Embeds the flow `check_even_number(number)` of cell 4: one `cf.run`
call, whose result is returned unchanged. -/
def check_even_number (run : EvenRunArgs → NumberResult) (number : Int) :
    NumberResult :=
  run (evenRunArgs number)

end LlmsRepo

namespace LlmsRepo

/-! ## Theorems for claims C1, C2, C6 -/

/-- **C1.** The authored flow functions are thin, unmodifying wrappers
over the third-party framework: for every input string `code`,
`review_code code` returns exactly the value produced by its single
`cf.run` invocation (on the argument record the flow builds), and for
every integer `number`, `check_even_number number` returns exactly the
value produced by its single `cf.run` invocation; no authored code
alters, filters, or post-processes the framework's result. -/
theorem review_and_check_flows_are_thin_wrappers :
    (∀ (run : ReviewRunArgs → CodeReview) (code : String),
      review_code run code = run (reviewRunArgs code)) ∧
    (∀ (run : EvenRunArgs → NumberResult) (number : Int),
      check_even_number run number = run (evenRunArgs number)) :=
  ⟨fun _ _ => rfl, fun _ _ => rfl⟩

/-- **C2.** For every `NumberResult` value `r`, `validate_even r` raises
`ValueError` if and only if `r.number` is odd, and when `r.number` is even
it returns `r` itself unchanged; the validator contains no retry or
recovery logic of its own (its only outcomes are the immediate error and
the unchanged input). -/
theorem validate_even_raises_iff_odd (r : NumberResult) :
    ((validate_even r).isOk = false ↔ r.number % 2 ≠ 0) ∧
    (r.number % 2 = 0 → validate_even r = Except.ok r) := by
  constructor
  · constructor
    · intro h hmod
      simp [validate_even, hmod, Except.isOk, Except.toBool] at h
    · intro hmod
      simp [validate_even, hmod, Except.isOk, Except.toBool]
  · intro hmod
    simp [validate_even, hmod]

/-- Witness for **C2** at concrete inputs: `validate_even ⟨4⟩` succeeds
with the unchanged input, and `validate_even ⟨5⟩` raises. -/
theorem validate_even_raises_iff_odd_witness :
    validate_even ⟨4⟩ = Except.ok ⟨4⟩ ∧
    (validate_even ⟨5⟩).isOk = false :=
  ⟨(validate_even_raises_iff_odd ⟨4⟩).2 (by decide),
   (validate_even_raises_iff_odd ⟨5⟩).1.2 (by decide)⟩

/-- **C6.** The two review tools fully determine their outputs from their
declared inputs: `approve_code` returns the fixed approved `CodeReview`
for every argument, `reject_code` returns the rejected `CodeReview`
carrying exactly its argument, and every value either tool returns
satisfies `approval = (status == "approved")`. -/
theorem review_tools_are_deterministic :
    (∀ r : CodeReview,
      approve_code r =
        { status := "approved", issues := []
          suggestions := ["Code meets all quality standards"]
          approval := true }) ∧
    (∀ issues : List String,
      reject_code issues =
        { status := "rejected", issues := issues
          suggestions := [], approval := false }) ∧
    (∀ r : CodeReview,
      (approve_code r).approval = ((approve_code r).status == "approved")) ∧
    (∀ issues : List String,
      (reject_code issues).approval =
        ((reject_code issues).status == "approved")) := by
  refine ⟨fun _ => rfl, fun _ => rfl, fun _ => rfl, fun issues => ?_⟩
  simp [reject_code]

end LlmsRepo

namespace LlmsRepo

/-! ## Reddit scraping notebook: BeautifulSoup scraper cell

Appended notebook JSON inside
`personal_projects/31.ai-youtube-analysis/prompts/summarize.txt`
(file lines 105–131).  Python string helpers are modelled first. -/

/-- Python `str.strip()`: drop leading and trailing whitespace. -/
def pyStrip (s : String) : String :=
  String.mk
    (((s.data.dropWhile Char.isWhitespace).reverse.dropWhile
      Char.isWhitespace).reverse)

/-- Python `str.rstrip()`: drop trailing whitespace. -/
def pyRstrip (s : String) : String :=
  String.mk ((s.data.reverse.dropWhile Char.isWhitespace).reverse)

/-- Python `str.replace("\n", "")`: remove every newline character. -/
def pyRemoveNewlines (s : String) : String :=
  String.mk (s.data.filter (fun c => c ≠ '\n'))

/-- The title anchor `article.find('a', slot title)`: its `.text` and
`['href']`. -/
structure TitleTag where
  text : String
  href : String
deriving DecidableEq, Repr

/-- A parsed `<article>` element: the optional title anchor, and the
`.text` of the optional text-body `div`
(`article.find('div', data-post-click-location text-body)`). -/
structure Article where
  titleTag : Option TitleTag
  textBody : Option String
deriving DecidableEq, Repr

/-- One value of the `posts_details` dictionary: the two fields
`'link'` and `'content'`. -/
structure PostDetail where
  link : String
  content : String
deriving DecidableEq, Repr

/-- `content_text = content.text.strip() if content else "No content"`
(file line 122). -/
def contentText (a : Article) : String :=
  match a.textBody with
  | some t => pyStrip t
  | none => "No content"

/-- The record stored for a titled article (file line 125):
`posts_details[title] = ... link ... content_text.rstrip().replace(...)`. -/
def articleDetail (t : TitleTag) (a : Article) : PostDetail :=
  { link := t.href
    content := pyRemoveNewlines (pyRstrip (contentText a)) }

/-- Python-dict assignment `d[k] = v` on an insertion-ordered list of
key-value pairs: overwrite the entry with key `k` in place, or append. -/
def dictInsert :
    List (String × PostDetail) → String → PostDetail →
      List (String × PostDetail)
  | [], k, v => [(k, v)]
  | p :: rest, k, v =>
      if p.1 == k then (k, v) :: rest else p :: dictInsert rest k v

/-- Python-dict lookup `d[k]` (as an `Option`). -/
def dictFind (d : List (String × PostDetail)) (k : String) :
    Option PostDetail :=
  (d.find? (fun p => p.1 == k)).map Prod.snd

/-- The body of the article loop (file lines 114–125): skip articles
without a title anchor, otherwise store the record under the stripped
title text. -/
def articleStep (acc : List (String × PostDetail)) (a : Article) :
    List (String × PostDetail) :=
  match a.titleTag with
  | none => acc
  | some t => dictInsert acc (pyStrip t.text) (articleDetail t a)

/-- The `posts_details` dictionary the scraper builds from the parsed
articles (file lines 111–125): start from `\x7b\x7d` and run the loop. -/
def build_posts_details (articles : List Article) :
    List (String × PostDetail) :=
  articles.foldl articleStep []

/-- The HTTP response of the single `requests.get` call: its
`status_code` and the `<article>` elements BeautifulSoup finds in
`response.text`. -/
structure Response where
  status_code : Nat
  articles : List Article
deriving DecidableEq, Repr

/-- The failure message printed on a non-200 response (file line 131). -/
def failMessage (code : Nat) : String :=
  "Failed to retrieve the webpage: Status code " ++ toString code

/-- The per-record line printed on success (file line 129). -/
def postLine (title : String) (d : PostDetail) : String :=
  "Title: " ++ title ++ "\nLink: " ++ d.link ++
    "\nContent: " ++ d.content ++ "\n"

/-- The observable outcome of one run of the scraper cell: how many HTTP
fetches it performed, the final `posts_details` binding (`none` when the
dictionary was never created), and what it printed. -/
structure ScrapeRun where
  fetches : Nat
  posts_details : Option (List (String × PostDetail))
  printed : List String
deriving DecidableEq, Repr

/-- Embeds the whole scraper cell (file lines 105–131).  `prev` is the
value of a `posts_details` binding left by an earlier run, if any: on a
200 response the cell rebinds `posts_details` from scratch, otherwise it
leaves the binding untouched and only prints the failing status code.
Exactly one `requests.get` is issued either way. -/
def scraperCell (prev : Option (List (String × PostDetail)))
    (resp : Response) : ScrapeRun :=
  if resp.status_code = 200 then
    let d := build_posts_details resp.articles
    { fetches := 1
      posts_details := some d
      printed := d.map (fun p => postLine p.1 p.2) }
  else
    { fetches := 1
      posts_details := prev
      printed := [failMessage resp.status_code] }

end LlmsRepo

namespace LlmsRepo

/-! ## Dictionary lemmas for the scraper -/

theorem dictFind_insert_self (d : List (String × PostDetail)) (k : String)
    (v : PostDetail) : dictFind (dictInsert d k v) k = some v := by
  induction d with
  | nil => simp [dictInsert, dictFind, List.find?]
  | cons p rest ih =>
      by_cases hpk : p.1 == k
      · simp [dictInsert, hpk, dictFind, List.find?]
      · simpa [dictInsert, hpk, dictFind, List.find?] using ih

theorem dictFind_insert_ne (d : List (String × PostDetail))
    (k k' : String) (v : PostDetail) (h : k' ≠ k) :
    dictFind (dictInsert d k v) k' = dictFind d k' := by
  have hne : (k == k') = false :=
    beq_eq_false_iff_ne.mpr (fun he => h he.symm)
  induction d with
  | nil => simp [dictInsert, dictFind, List.find?, hne]
  | cons p rest ih =>
      by_cases hpk : p.1 == k
      · have hk : p.1 = k := by simpa using hpk
        simp [dictInsert, hpk, dictFind, List.find?, hk, hne]
      · by_cases hpk' : p.1 == k'
        · simp [dictInsert, hpk, dictFind, List.find?, hpk']
        · simpa [dictInsert, hpk, dictFind, List.find?, hpk'] using ih

theorem mem_dictInsert (d : List (String × PostDetail)) (k : String)
    (v : PostDetail) (q : String × PostDetail) (hq : q ∈ dictInsert d k v) :
    q = (k, v) ∨ q ∈ d := by
  induction d with
  | nil => simpa [dictInsert] using hq
  | cons p rest ih =>
      by_cases hpk : p.1 == k
      · rcases (by simpa [dictInsert, hpk] using hq) with h | h
        · exact Or.inl h
        · exact Or.inr (List.mem_cons_of_mem _ h)
      · rcases (by simpa [dictInsert, hpk] using hq) with h | h
        · exact Or.inr (by simp [h])
        · rcases ih h with h' | h'
          · exact Or.inl h'
          · exact Or.inr (List.mem_cons_of_mem _ h')

theorem dictFind_insert_isSome (d : List (String × PostDetail))
    (k k' : String) (v : PostDetail) (h : (dictFind d k').isSome) :
    (dictFind (dictInsert d k v) k').isSome := by
  by_cases hk : k' = k
  · subst hk; simp [dictFind_insert_self]
  · rwa [dictFind_insert_ne d k k' v hk]

/-! ## Fold lemmas for `build_posts_details` -/

theorem dictFind_step_isSome (acc : List (String × PostDetail))
    (a : Article) (k : String) (h : (dictFind acc k).isSome) :
    (dictFind (articleStep acc a) k).isSome := by
  cases ht : a.titleTag with
  | none => simpa [articleStep, ht] using h
  | some t => simpa [articleStep, ht] using
      dictFind_insert_isSome acc (pyStrip t.text) k (articleDetail t a) h

theorem dictFind_foldl_isSome (l : List Article)
    (acc : List (String × PostDetail)) (k : String)
    (h : (dictFind acc k).isSome) :
    (dictFind (l.foldl articleStep acc) k).isSome := by
  induction l generalizing acc with
  | nil => simpa using h
  | cons b rest ih =>
      simpa using ih (articleStep acc b) (dictFind_step_isSome acc b k h)

theorem dictFind_foldl_present (l : List Article)
    (acc : List (String × PostDetail)) (a : Article) (t : TitleTag)
    (ha : a ∈ l) (ht : a.titleTag = some t) :
    (dictFind (l.foldl articleStep acc) (pyStrip t.text)).isSome := by
  induction l generalizing acc with
  | nil => cases ha
  | cons b rest ih =>
      rcases List.mem_cons.mp ha with hab | harest
      · subst hab
        refine dictFind_foldl_isSome rest (articleStep acc a) _ ?_
        simp [articleStep, ht, dictFind_insert_self]
      · simpa using ih (articleStep acc b) harest

theorem mem_foldl_articleStep (l : List Article)
    (acc : List (String × PostDetail)) (q : String × PostDetail)
    (hq : q ∈ l.foldl articleStep acc) :
    q ∈ acc ∨ ∃ a ∈ l, ∃ t : TitleTag, a.titleTag = some t ∧
      q = (pyStrip t.text, articleDetail t a) := by
  induction l generalizing acc with
  | nil => exact Or.inl (by simpa using hq)
  | cons b rest ih =>
      rcases ih (articleStep acc b) (by simpa using hq) with h | h
      · cases ht : b.titleTag with
        | none =>
            rcases (by simpa [articleStep, ht] using h :
              q ∈ acc) with h'
            exact Or.inl h'
        | some t =>
            rcases mem_dictInsert acc (pyStrip t.text) (articleDetail t b) q
              (by simpa [articleStep, ht] using h) with h' | h'
            · exact Or.inr ⟨b, by simp, t, ht, h'⟩
            · exact Or.inl h'
      · rcases h with ⟨a, ha, t, ht, hqa⟩
        exact Or.inr ⟨a, by simp [ha], t, ht, hqa⟩

end LlmsRepo

namespace LlmsRepo

/-! ## Theorems for claims C4, C5, C8 -/

/-- The record claim C4 says is stored for a titled article: `link` is
the title tag's href and `content` is the stripped text-body text (or
`"No content"`), with no further transformation. -/
def c4ClaimedDetail (t : TitleTag) (a : Article) : PostDetail :=
  { link := t.href, content := contentText a }

/-- Claim C4 exactly as stated: on a 200 response, every titled article
contributes a record keyed by its stripped title whose value is
`c4ClaimedDetail`. -/
def c4Claim : Prop :=
  ∀ resp : Response, resp.status_code = 200 →
    ∀ a ∈ resp.articles, ∀ t : TitleTag, a.titleTag = some t →
      dictFind ((scraperCell none resp).posts_details.getD [])
          (pyStrip t.text) =
        some (c4ClaimedDetail t a)

/-- **C4 counterexample.**  The scraper additionally applies
`.rstrip().replace("\n", "")` to the stripped text-body text before
storing it, so for an article whose text body contains an interior
newline the stored `content` differs from the stripped text the claim
describes: with text body `"a\nb"` the code stores `"ab"`. -/
theorem c4Claim_false : ¬ c4Claim := by
  intro h
  have h1 := h ⟨200, [⟨some ⟨"T", "L"⟩, some "a\nb"⟩]⟩ rfl
    ⟨some ⟨"T", "L"⟩, some "a\nb"⟩ (by simp) ⟨"T", "L"⟩ rfl
  revert h1
  decide

/-- **C4 (amended).**  On a 200 response the scraper builds the
dictionary `posts_details` in which every parsed article containing a
title link contributes a record keyed by its stripped title text, and
every record in the dictionary comes from such an article, with exactly
the two fields: `link`, the title tag's href, and `content`, the
stripped text-body text (or `"No content"` when the article has no
text-body div) with trailing whitespace and every newline character
removed. -/
theorem scraper_builds_keyed_records (resp : Response)
    (h : resp.status_code = 200) :
    (scraperCell none resp).posts_details =
      some (build_posts_details resp.articles) ∧
    (∀ a ∈ resp.articles, ∀ t : TitleTag, a.titleTag = some t →
      (dictFind (build_posts_details resp.articles)
        (pyStrip t.text)).isSome) ∧
    (∀ q ∈ build_posts_details resp.articles,
      ∃ a ∈ resp.articles, ∃ t : TitleTag, a.titleTag = some t ∧
        q.1 = pyStrip t.text ∧ q.2.link = t.href ∧
        q.2.content = pyRemoveNewlines (pyRstrip (contentText a))) := by
  refine ⟨by simp [scraperCell, h], ?_, ?_⟩
  · intro a ha t ht
    exact dictFind_foldl_present resp.articles [] a t ha ht
  · intro q hq
    rcases mem_foldl_articleStep resp.articles [] q hq with h' | h'
    · simp at h'
    · rcases h' with ⟨a, ha, t, ht, hqa⟩
      exact ⟨a, ha, t, ht, by simp [hqa, articleDetail]⟩

/-- Witness for **C4 (amended)** at a concrete 200 response with one
titled article. -/
theorem scraper_builds_keyed_records_witness :
    (dictFind (build_posts_details [⟨some ⟨"T", "L"⟩, some "a\nb"⟩])
      (pyStrip "T")).isSome := by
  have h := scraper_builds_keyed_records
    ⟨200, [⟨some ⟨"T", "L"⟩, some "a\nb"⟩]⟩ rfl
  exact h.2.1 ⟨some ⟨"T", "L"⟩, some "a\nb"⟩ (by simp) ⟨"T", "L"⟩ rfl

/-- **C5.**  Each run of the scraper cell performs exactly one HTTP
fetch, and whenever the response status code is not 200 it performs no
retry, parses nothing, and produces no records (no `posts_details`
dictionary is built), only reporting the failing status code. -/
theorem scraper_failure_no_retry (resp : Response)
    (h : resp.status_code ≠ 200) :
    (∀ (prev : Option (List (String × PostDetail))) (resp' : Response),
      (scraperCell prev resp').fetches = 1) ∧
    scraperCell none resp =
      { fetches := 1
        posts_details := none
        printed := [failMessage resp.status_code] } := by
  refine ⟨fun prev resp' => ?_, by simp [scraperCell, h]⟩
  by_cases h' : resp'.status_code = 200 <;> simp [scraperCell, h']

/-- Witness for **C5** at a concrete 404 response carrying a parseable
article: still one fetch, no records, only the failure message. -/
theorem scraper_failure_no_retry_witness :
    scraperCell none ⟨404, [⟨some ⟨"T", "L"⟩, some "body"⟩]⟩ =
      { fetches := 1
        posts_details := none
        printed :=
          ["Failed to retrieve the webpage: Status code 404"] } := by
  have h := scraper_failure_no_retry
    ⟨404, [⟨some ⟨"T", "L"⟩, some "body"⟩]⟩ (by decide)
  exact h.2.trans (by decide)

/-- **C8.**  The parsing stage keeps no persistent crawl-state and is
deterministic: on a 200 response the scraper cell's outcome is identical
whatever `posts_details` binding a previous run left behind, and the
resulting dictionary is exactly the pure function
`build_posts_details` of the fetched page's articles. -/
theorem scraper_parse_stateless (prev prev' :
    Option (List (String × PostDetail))) (resp : Response)
    (h : resp.status_code = 200) :
    scraperCell prev resp = scraperCell prev' resp ∧
    (scraperCell prev resp).posts_details =
      some (build_posts_details resp.articles) := by
  constructor <;> simp [scraperCell, h]

/-- Witness for **C8**: a run starting from a stale non-empty
`posts_details` binding and a run starting from nothing agree on a
concrete 200 response. -/
theorem scraper_parse_stateless_witness :
    scraperCell (some [("old", ⟨"l", "c"⟩)]) ⟨200, []⟩ =
      scraperCell none ⟨200, []⟩ ∧
    (scraperCell (some [("old", ⟨"l", "c"⟩)]) ⟨200, []⟩).posts_details =
      some [] := by
  have h := scraper_parse_stateless (some [("old", ⟨"l", "c"⟩)]) none
    ⟨200, []⟩ rfl
  exact ⟨h.1, h.2⟩

end LlmsRepo

namespace LlmsRepo

/-! ## Reddit scraping notebook: `get_comments_with_replies`

Appended notebook JSON inside
`personal_projects/31.ai-youtube-analysis/prompts/summarize.txt`
(file lines 287–298). A praw comment tree is modelled by a mutual
inductive: a comment carries its body and either a list of replies or no
`replies` attribute at all, and a reply is either a comment or a
`praw.models.MoreComments` placeholder (which carries no fetched
subtree). -/

mutual
inductive Comment : Type where
  | mk (body : String) (replies : ReplyList) : Comment
  | noRepliesAttr (body : String) : Comment
deriving DecidableEq
inductive ReplyList : Type where
  | nil : ReplyList
  | cons (head : Reply) (tail : ReplyList) : ReplyList
deriving DecidableEq
inductive Reply : Type where
  | comment (c : Comment) : Reply
  | moreComments : Reply
deriving DecidableEq
end

/-- Python `"  " * depth` (file line 290). -/
def spacer (depth : Nat) : String :=
  String.join (List.replicate depth "  ")

mutual
/-- Embeds `get_comments_with_replies(comment, depth)` (file lines
287–298): emit the comment's own formatted line, then — after defaulting
a missing `replies` attribute to the empty list — process each reply,
skipping `MoreComments` instances. -/
def get_comments_with_replies : Comment → Nat → List String
  | Comment.mk body replies, depth =>
      (spacer depth ++ "- " ++ body) :: repliesLoop replies depth
  | Comment.noRepliesAttr body, depth =>
      [spacer depth ++ "- " ++ body]
/-- The reply loop of `get_comments_with_replies` (file lines 294–297):
`continue` on a `MoreComments` reply, otherwise extend with the
recursive call at `depth + 1`. -/
def repliesLoop : ReplyList → Nat → List String
  | ReplyList.nil, _ => []
  | ReplyList.cons Reply.moreComments tail, depth => repliesLoop tail depth
  | ReplyList.cons (Reply.comment c) tail, depth =>
      get_comments_with_replies c (depth + 1) ++ repliesLoop tail depth
end

mutual
/-- Spec-side description for claim C9: the comments reached in
depth-first order, skipping every `MoreComments` node, each paired with
its nesting level below the starting comment. -/
def reachedComments : Comment → List (Nat × String)
  | Comment.mk body replies =>
      (0, body) ::
        (reachedForest replies).map (fun p => (p.1 + 1, p.2))
  | Comment.noRepliesAttr body => [(0, body)]
/-- Spec-side description for claim C9, on a list of replies. -/
def reachedForest : ReplyList → List (Nat × String)
  | ReplyList.nil => []
  | ReplyList.cons Reply.moreComments tail => reachedForest tail
  | ReplyList.cons (Reply.comment c) tail =>
      reachedComments c ++ reachedForest tail
end

mutual
theorem gcwr_eq_reached (c : Comment) (depth : Nat) :
    get_comments_with_replies c depth =
      (reachedComments c).map
        (fun p => spacer (depth + p.1) ++ "- " ++ p.2) :=
  match c with
  | Comment.mk body replies => by
      simp only [get_comments_with_replies, reachedComments,
        List.map_cons, List.map_map, Nat.add_zero,
        repliesLoop_eq_reached replies depth]
      congr 1
      apply List.map_congr_left
      intro p _
      simp [Function.comp, Nat.add_comm, Nat.add_left_comm, Nat.add_assoc]
  | Comment.noRepliesAttr body => by
      simp [get_comments_with_replies, reachedComments, repliesLoop]
theorem repliesLoop_eq_reached (rs : ReplyList) (depth : Nat) :
    repliesLoop rs depth =
      (reachedForest rs).map
        (fun p => spacer (depth + 1 + p.1) ++ "- " ++ p.2) :=
  match rs with
  | ReplyList.nil => by simp [repliesLoop, reachedForest]
  | ReplyList.cons Reply.moreComments tail => by
      simp only [repliesLoop, reachedForest]
      exact repliesLoop_eq_reached tail depth
  | ReplyList.cons (Reply.comment c) tail => by
      simp only [repliesLoop, reachedForest, List.map_append]
      rw [gcwr_eq_reached c (depth + 1), repliesLoop_eq_reached tail depth]
end

end LlmsRepo

namespace LlmsRepo

/-- **C9.** For every finite comment tree,
`get_comments_with_replies comment depth` terminates (it is a total
function of the tree) and returns a list containing exactly one
formatted line per comment reached in depth-first order, skipping every
`praw.models.MoreComments` node, where each line is the comment body
prefixed by `"- "` and two spaces of indentation per nesting level below
the starting depth; a comment object without a `replies` attribute is
treated as having no replies. -/
theorem get_comments_with_replies_spec :
    (∀ (c : Comment) (depth : Nat),
      get_comments_with_replies c depth =
        (reachedComments c).map
          (fun p => spacer (depth + p.1) ++ "- " ++ p.2)) ∧
    (∀ (c : Comment) (depth : Nat),
      (get_comments_with_replies c depth).length =
        (reachedComments c).length) ∧
    (∀ (body : String) (depth : Nat),
      get_comments_with_replies (Comment.noRepliesAttr body) depth =
        get_comments_with_replies (Comment.mk body ReplyList.nil) depth) := by
  refine ⟨fun c depth => gcwr_eq_reached c depth,
    fun c depth => ?_, fun body depth => ?_⟩
  · rw [gcwr_eq_reached c depth, List.length_map]
  · simp [get_comments_with_replies, repliesLoop]

end LlmsRepo

namespace LlmsRepo

/-! ## Repository file inventory

Claims C3 and C7 are about what kinds of authored content each source
file holds.  The inventory below records, for each file, the ordered
list of content kinds actually found in it; for
`prompts/summarize.txt` the prompt-template text (file lines 1–50) is
embedded verbatim and the cell structure of the appended notebook JSON
(file lines 51–359) is recorded cell by cell. -/

/-- The four content kinds named by the specification:
(a) tutorial walkthrough, (b) static prompt template,
(c) setup/installation documentation, (d) scraping script. -/
inductive ContentKind : Type where
  | tutorial : ContentKind
  | promptTemplate : ContentKind
  | setupDoc : ContentKind
  | scrapingScript : ContentKind
deriving DecidableEq, Repr

/-- A source file of the repository: its path and the ordered content
kinds authored in it. -/
structure RepoFile where
  path : String
  contents : List ContentKind
deriving DecidableEq, Repr

/-- The type of a Jupyter notebook cell. -/
inductive CellType : Type where
  | markdown : CellType
  | code : CellType
deriving DecidableEq, Repr

/-- The cell types of the notebook JSON appended to
`prompts/summarize.txt` (file lines 51–337), in order: markdown
"Scraper", code imports, markdown "Just using BeautiflSoup", code
BeautifulSoup scraper, markdown Selenium note, code Selenium scraper,
code `posts_details`, markdown PRAW setup, empty markdown, code
`load_dotenv`, code `praw.Reddit`, code subreddit comment scrape, code
output-file writer. -/
def summarizeAppendedCells : List CellType :=
  [ CellType.markdown, CellType.code, CellType.markdown, CellType.code
  , CellType.markdown, CellType.code, CellType.code, CellType.markdown
  , CellType.markdown, CellType.code, CellType.code, CellType.code
  , CellType.code ]

/-- The content kinds of `prompts/summarize.txt`: the prompt template of
lines 1–50, followed by a scraping-script segment exactly when the
appended notebook has at least one code cell. -/
def summarizeContents : List ContentKind :=
  ContentKind.promptTemplate ::
    (if summarizeAppendedCells.any (fun c => c == CellType.code) then
      [ContentKind.scrapingScript]
    else [])

def comfySetupFile : RepoFile :=
  { path := "learning/comfy-ui/01.setup.md"
    contents := [ContentKind.setupDoc] }

def controlflowExampleFile : RepoFile :=
  { path := "learning/controlflow/examples/example3.ipynb"
    contents := [ContentKind.tutorial] }

def crawl4aiReadmeFile : RepoFile :=
  { path := "learning/crawl4ai/README.md"
    contents := [ContentKind.setupDoc] }

/-- The unnamed ControlFlow settings notebook (`unnamed/part_000`). -/
def controlflowSettingsFile : RepoFile :=
  { path := "unnamed/part_000"
    contents := [ContentKind.tutorial] }

/-- The unnamed crawl4ai install-notes fragment (`unnamed/part_001`). -/
def crawl4aiFragmentFile : RepoFile :=
  { path := "unnamed/part_001"
    contents := [ContentKind.setupDoc] }

/-- The unnamed FLUX.1 image-generation notebook (`unnamed/part_002`). -/
def fluxNotebookFile : RepoFile :=
  { path := "unnamed/part_002"
    contents := [ContentKind.tutorial] }

def summarizeTxtFile : RepoFile :=
  { path := "personal_projects/31.ai-youtube-analysis/prompts/summarize.txt"
    contents := summarizeContents }

/-- All seven source files of the repository. -/
def repoFiles : List RepoFile :=
  [ comfySetupFile, controlflowExampleFile, crawl4aiReadmeFile
  , controlflowSettingsFile, crawl4aiFragmentFile, fluxNotebookFile
  , summarizeTxtFile ]

/-- The distinct content kinds of a file. -/
def fileKinds (f : RepoFile) : List ContentKind :=
  f.contents.dedup

/-- Whether a file is of exactly one of the four kinds. -/
def exactlyOneKind (f : RepoFile) : Bool :=
  (fileKinds f).length == 1

/-- Whether a file mixes a prompt template with an executable scraping
script. -/
def mixesPromptAndScraping (f : RepoFile) : Bool :=
  f.contents.contains ContentKind.promptTemplate &&
    f.contents.contains ContentKind.scrapingScript

end LlmsRepo

namespace LlmsRepo

/-- The prompt-template portion of `prompts/summarize.txt` (file lines
1–50), embedded verbatim line by line (the two apostrophes of line 34
are written as the escape `\x27`). -/
def summarizePromptTemplateLines : List String :=
  [ "### Purpose"
  , "you MUST Summarize a YouTube video to capture the main topics and themes, especially related to AI and LLMs. The purpose of this summary is to allow for topic categorization based on a predefined list of topics, so make sure you include all relevant information around any frameworks, tools, or technologies discussed."
  , ""
  , "### Instructions"
  , "1. Read the provided title, description, and transcript of a YouTube video. Note that the transcript may not be available."
  , "2. Determine if the video is about AI or Large Language Models (LLMs)."
  , "3. If the video is relevant, generate a concise summary focusing on key points and topics discussed."
  , "4. The summary should be detailed enough to allow for topic categorization based on a predefined list of topics."
  , "5. Make note if the person is sharing AI news, demonstrating a tool or technology, providing advice, discussing a framework, or discussing a company."
  , "6. Write the comprehensive summary in clear, professional language."
  , "7. Write it in 400 words or less."
  , ""
  , "**Note**: If all provided information is insufficient to generate a summary, respond with \"No summary available.\""
  , ""
  , "Example Output:"
  , "- Summary: In this video, the presenter delves into the advancements of multimodal models in AI, highlighting how combining text and images can enhance machine understanding. They discuss the implications of these models on image classification and generation, and provide examples of practical applications. The video also touches on ethical considerations and the future potential of multimodal AI systems. ..."
  , ""
  , "## Video Title"
  , "`{title}`"
  , ""
  , "## Video Description"
  , "`{description}`"
  , ""
  , "## Transcript"
  , "`{transcript}`"
  , ""
  , "### Purpose"
  , "Categorize a YouTube video summary into relevant AI and LLM topics based on a predefined list, adding new topics if necessary."
  , ""
  , "### Instructions"
  , "1. Read the provided summary of a YouTube video."
  , "2. Identify all relevant topics discussed in the summary using the predefined list below."
  , "3. Ensure the topics are specific and align with the subjects covered in the video."
  , "5. Try your hardest to stay within the predefined topics list. Don\x27t add additional topics that aren\x27t already listed below unless you really need to."
  , "6. Return a list of topics that accurately reflect the content of the summary."
  , ""
  , "### Predefined Topics"
  , "- `{predefined_topics}`"
  , ""
  , "### Example Output"
  , "  - Multimodal models"
  , "  - Image classification and generation"
  , "  - AI Ethics "
  , ""
  , "note: `AI Ethics` is a new topic added."
  , ""
  , "---"
  , ""
  , "### Summary:"
  , "`{summary}`" ]

/-- The prompt template as a single string. -/
def summarizePromptTemplate : String :=
  String.intercalate "\n" summarizePromptTemplateLines

/-- The opening brace character, by code point. -/
def openBrace : Char := Char.ofNat 123

/-- The closing brace character, by code point. -/
def closeBrace : Char := Char.ofNat 125

/-- Scan a character list for substitution placeholders: each maximal
run of characters between an opening brace and the following closing
brace.  The accumulator holds the (reversed) characters of the
placeholder currently being read, if any. -/
def placeholderScan : List Char → Option (List Char) → List String
  | [], _ => []
  | c :: rest, none =>
      if c = openBrace then placeholderScan rest (some [])
      else placeholderScan rest none
  | c :: rest, some acc =>
      if c = closeBrace then
        String.mk acc.reverse :: placeholderScan rest none
      else placeholderScan rest (some (c :: acc))

/-- The substitution placeholders of a prompt string, in order. -/
def extractPlaceholders (s : String) : List String :=
  placeholderScan s.data none

end LlmsRepo

namespace LlmsRepo

/-! ## Theorems for claims C3 and C7 -/

set_option maxRecDepth 20000

/-- Claim C3 exactly as stated: every source file is of exactly one of
the four kinds, and in particular no single file mixes a prompt template
with an executable scraping script. -/
def c3Claim : Prop :=
  ∀ f ∈ repoFiles,
    exactlyOneKind f = true ∧ mixesPromptAndScraping f = false

/-- **C3 counterexample.**  `prompts/summarize.txt` is two kinds at
once: its lines 1–50 are a static prompt template and its lines 51–359
are appended notebook JSON whose code cells form an executable scraping
script, so it mixes (b) with (d). -/
theorem c3Claim_false : ¬ c3Claim := by
  intro h
  have hmem : summarizeTxtFile ∈ repoFiles := by simp [repoFiles]
  exact absurd (h summarizeTxtFile hmem).2 (by decide)

/-- **C3 (amended).**  Every source file other than
`prompts/summarize.txt` is exactly one of the four stated kinds and
mixes nothing; `prompts/summarize.txt` itself consists of a prompt
template followed by an appended executable scraping notebook, mixing
kinds (b) and (d). -/
theorem repo_files_one_kind_except_summarize (f : RepoFile)
    (hf : f ∈ repoFiles) (hne : f.path ≠ summarizeTxtFile.path) :
    (exactlyOneKind f = true ∧ mixesPromptAndScraping f = false) ∧
    fileKinds summarizeTxtFile =
      [ContentKind.promptTemplate, ContentKind.scrapingScript] := by
  refine ⟨?_, by decide⟩
  simp only [repoFiles, List.mem_cons, List.not_mem_nil, or_false] at hf
  rcases hf with rfl | rfl | rfl | rfl | rfl | rfl | rfl <;>
    revert hne <;> decide

/-- Witness for **C3 (amended)** at the ComfyUI setup document. -/
theorem repo_files_one_kind_except_summarize_witness :
    exactlyOneKind comfySetupFile = true ∧
    fileKinds summarizeTxtFile =
      [ContentKind.promptTemplate, ContentKind.scrapingScript] := by
  have h := repo_files_one_kind_except_summarize comfySetupFile
    (by simp [repoFiles]) (by decide)
  exact ⟨h.1.1, h.2⟩

/-- Claim C7 exactly as stated: `prompts/summarize.txt` is only fixed
narrative text and substitution placeholders, with no executable code
authored in it — so the appended notebook would have to contain no code
cells and the file would be of the single kind prompt template. -/
def c7Claim : Prop :=
  summarizeAppendedCells.all (fun c => c == CellType.markdown) = true ∧
  fileKinds summarizeTxtFile = [ContentKind.promptTemplate]

/-- **C7 counterexample.**  `prompts/summarize.txt` does contain
executable code: the notebook JSON appended at its lines 51–359 has
eight code cells (imports, two scrapers, PRAW setup and extraction, and
an output writer). -/
theorem c7Claim_false : ¬ c7Claim := by
  unfold c7Claim
  decide

/-- **C7 (amended).**  Lines 1–50 of `prompts/summarize.txt` are a
static prompt template whose substitution placeholders are exactly
`{title}`, `{description}`, `{transcript}`, `{predefined_topics}` and
`{summary}`; but the file additionally contains appended notebook JSON
(lines 51–359) with eight executable code cells, making it a prompt
template followed by a scraping script rather than a purely static
template. -/
theorem summarize_is_template_plus_appended_code :
    extractPlaceholders summarizePromptTemplate =
      ["title", "description", "transcript", "predefined_topics",
        "summary"] ∧
    (summarizeAppendedCells.filter
      (fun c => c == CellType.code)).length = 8 ∧
    fileKinds summarizeTxtFile =
      [ContentKind.promptTemplate, ContentKind.scrapingScript] :=
  ⟨by decide, by decide, by decide⟩

end LlmsRepo
